import Mathlib

/-!
# Verification of the Ensembl reference-data loader

A shallow embedding of `bin/load_annotations/load_annotations.py` (the
single source file of this repository).  Rows coming out of the BioMart
service are tab-separated strings; the loader parses them, transforms
exon rows according to their UTR/coding annotations, groups exons by
transcript, and persists gene, transcript, exon and protein records.

Conventions of the embedding:
* Python string values stay `String`; an empty string is falsy
  (`s != ""` mirrors `if row_dict[k]:`).
* Python's `int(...)` applied to a string is partial; `pyInt` returns
  `Option Int`, and `pyIntE` lifts the failure to a `ValueError`.
* Fallible stages return `Except PyErr _`; `.ok none` in the exon
  transform encodes the `continue` statements that drop a row.
* Database surrogate-key plumbing (SQLAlchemy sessions) is out of the
  modelled scope; lookups by external identifier are passed in as
  functions, and the persisted transcript/exon association is carried
  by pairing each transcript record with its exon records.
-/

set_option autoImplicit false

namespace CancerApi

instance instDecEqExcept {ε α : Type} [DecidableEq ε] [DecidableEq α] :
    DecidableEq (Except ε α) := fun x y =>
  match x, y with
  | .ok a, .ok b =>
    if h : a = b then .isTrue (by rw [h]) else .isFalse (by intro hc; cases hc; exact h rfl)
  | .error a, .error b =>
    if h : a = b then .isTrue (by rw [h]) else .isFalse (by intro hc; cases hc; exact h rfl)
  | .ok _, .error _ => .isFalse (by intro hc; cases hc)
  | .error _, .ok _ => .isFalse (by intro hc; cases hc)

/-- The Python exceptions that the loader's code paths can raise. -/
inductive PyErr where
  | valueError (msg : String)
  | typeError (msg : String)
  | keyError (key : String)
  | attributeError (msg : String)
  | fileNotFoundError (path : String)
  deriving Repr, DecidableEq

/-- Decimal digits of a (nonempty) character list, or `none` if some
character is not an ASCII digit.  Helper for `pyInt`. -/
def digitsToNatAux : Nat → List Char → Option Nat
  | acc, [] => some acc
  | acc, c :: cs =>
    if c.isDigit then digitsToNatAux (acc * 10 + (c.toNat - 48)) cs else none

/-- `digitsToNat cs` is the value of the digit string `cs`; the empty
list and lists holding a non-digit give `none`. -/
def digitsToNat : List Char → Option Nat
  | [] => none
  | c :: cs => digitsToNatAux 0 (c :: cs)

/-- Whitespace stripping as done by Python's `int` on both ends of the
literal (modelled on character lists). -/
def stripWs (cs : List Char) : List Char :=
  ((cs.dropWhile Char.isWhitespace).reverse.dropWhile Char.isWhitespace).reverse

/-- Python's `int(s)` on a string: strip surrounding whitespace, then an
optional sign followed by at least one ASCII decimal digit.  (Unicode
decimals and `_` digit separators never occur in this data and are not
modelled.)  `none` is a `ValueError`. -/
def pyInt (s : String) : Option Int :=
  match stripWs s.toList with
  | '-' :: rest => (digitsToNat rest).map (fun n => -(n : Int))
  | '+' :: rest => (digitsToNat rest).map (fun n => (n : Int))
  | cs => (digitsToNat cs).map (fun n => (n : Int))

/-- `int(...)` as the loader uses it: a parse failure raises `ValueError`. -/
def pyIntE (s : String) : Except PyErr Int :=
  match pyInt s with
  | some n => .ok n
  | none => .error (.valueError s)

/-- One exon row as parsed from the transcript/exon dataset, with the
keys of `EXON_FIELDNAMES` (source lines 35-39).  The Python keys
`5_utr_start`, `5_utr_end`, `3_utr_start`, `3_utr_end` are spelled
`utr5_start`, `utr5_end`, `utr3_start`, `utr3_end` here because Lean
names cannot begin with a digit.  All values are raw strings; an empty
string denotes "not applicable". -/
structure ExonRow where
  ensembl_exon_id : String
  ensembl_transcript_id : String
  ensembl_gene_id : String
  strand : String
  phase : String
  utr5_start : String
  utr5_end : String
  cdna_coding_start : String
  cdna_coding_end : String
  utr3_start : String
  utr3_end : String
  cds_start : String
  cds_end : String
  genomic_coding_start : String
  genomic_coding_end : String
  exon_chrom_start : String
  exon_chrom_end : String
  deriving Repr, DecidableEq

/-- The exon dictionary appended to a transcript's exon list
(source lines 202-214). -/
structure ExonKept where
  exon_ensembl_id : String
  strand : String
  phase : String
  end_phase : String
  length : Int
  transcript_start_pos : Int
  transcript_end_pos : Int
  genome_start_pos : String
  genome_end_pos : String
  cdna_coding_start : String
  cdna_coding_end : String
  deriving Repr, DecidableEq

/-- The Exon Transform, source lines 159-214: computes
`exon_length = int(exon_chrom_end) - int(exon_chrom_start) + 1`, then
branches on Python truthiness (non-emptiness) of `5_utr_start`,
`cdna_coding_start` and `3_utr_start`, in the source's `elif` order.
`.ok none` is a `continue` (row dropped); integer conversions are
performed in the source's left-to-right evaluation order so that the
first failing `int(...)` raises. -/
def exonTransform (r : ExonRow) : Except PyErr (Option ExonKept) :=
  match pyIntE r.exon_chrom_end with
  | .error e => .error e
  | .ok ce =>
  match pyIntE r.exon_chrom_start with
  | .error e => .error e
  | .ok cs =>
  let exonLength : Int := ce - cs + 1
  -- if row_dict['5_utr_start'] and row_dict['cdna_coding_start']
  if r.utr5_start != "" && r.cdna_coding_start != "" then
    match pyIntE r.utr5_end with
    | .error e => .error e
    | .ok u5e =>
    match pyIntE r.utr5_start with
    | .error e => .error e
    | .ok u5s =>
    let utrLength : Int := u5e - u5s + 1
    match pyIntE r.cdna_coding_start with
    | .error e => .error e
    | .ok ccs =>
    match pyIntE r.cdna_coding_end with
    | .error e => .error e
    | .ok cce =>
    match pyIntE r.phase with
    | .error e => .error e
    | .ok ph =>
      .ok (some
        { exon_ensembl_id := r.ensembl_exon_id
          strand := r.strand
          phase := r.phase
          end_phase := toString ((ph + exonLength) % 3)
          length := exonLength
          transcript_start_pos := ccs - utrLength
          transcript_end_pos := cce
          genome_start_pos := r.exon_chrom_start
          genome_end_pos := r.exon_chrom_end
          cdna_coding_start := r.cdna_coding_start
          cdna_coding_end := r.cdna_coding_end })
  -- elif row_dict['5_utr_start'] and not row_dict['cdna_coding_start']
  else if r.utr5_start != "" && r.cdna_coding_start == "" then
    .ok none
  -- elif row_dict['3_utr_start'] and row_dict['cdna_coding_start']
  else if r.utr3_start != "" && r.cdna_coding_start != "" then
    match pyIntE r.utr3_end with
    | .error e => .error e
    | .ok u3e =>
    match pyIntE r.utr3_start with
    | .error e => .error e
    | .ok u3s =>
    let utrLength : Int := u3e - u3s + 1
    match pyIntE r.cdna_coding_start with
    | .error e => .error e
    | .ok ccs =>
    match pyIntE r.cdna_coding_end with
    | .error e => .error e
    | .ok cce =>
      .ok (some
        { exon_ensembl_id := r.ensembl_exon_id
          strand := r.strand
          phase := r.phase
          end_phase := "-1"
          length := exonLength
          transcript_start_pos := ccs
          transcript_end_pos := cce + utrLength
          genome_start_pos := r.exon_chrom_start
          genome_end_pos := r.exon_chrom_end
          cdna_coding_start := r.cdna_coding_start
          cdna_coding_end := r.cdna_coding_end })
  -- elif row_dict['3_utr_start'] and not row_dict['cdna_coding_start']
  else if r.utr3_start != "" && r.cdna_coding_start == "" then
    .ok none
  -- elif 5_utr_start and 3_utr_start and cdna_coding_start
  -- (source lines 180-186; unreachable after the first branch, kept verbatim)
  else if r.utr5_start != "" && r.utr3_start != "" && r.cdna_coding_start != "" then
    match pyIntE r.utr5_end with
    | .error e => .error e
    | .ok u5e =>
    match pyIntE r.utr5_start with
    | .error e => .error e
    | .ok u5s =>
    let utr5Length : Int := u5e - u5s + 1
    match pyIntE r.utr3_end with
    | .error e => .error e
    | .ok u3e =>
    match pyIntE r.utr3_start with
    | .error e => .error e
    | .ok u3s =>
    let utr3Length : Int := u3e - u3s + 1
    match pyIntE r.cdna_coding_start with
    | .error e => .error e
    | .ok ccs =>
    match pyIntE r.cdna_coding_end with
    | .error e => .error e
    | .ok cce =>
      .ok (some
        { exon_ensembl_id := r.ensembl_exon_id
          strand := r.strand
          phase := r.phase
          end_phase := "-1"
          length := exonLength
          transcript_start_pos := ccs - utr5Length
          transcript_end_pos := cce + utr3Length
          genome_start_pos := r.exon_chrom_start
          genome_end_pos := r.exon_chrom_end
          cdna_coding_start := r.cdna_coding_start
          cdna_coding_end := r.cdna_coding_end })
  -- elif 5_utr_start and 3_utr_start and not cdna_coding_start
  else if r.utr5_start != "" && r.utr3_start != "" && r.cdna_coding_start == "" then
    .ok none
  -- elif not 5_utr_start and not 3_utr_start and cdna_coding_start
  else if r.utr5_start == "" && r.utr3_start == "" && r.cdna_coding_start != "" then
    match pyIntE r.cdna_coding_start with
    | .error e => .error e
    | .ok ccs =>
    match pyIntE r.cdna_coding_end with
    | .error e => .error e
    | .ok cce =>
    match pyIntE r.phase with
    | .error e => .error e
    | .ok ph =>
      .ok (some
        { exon_ensembl_id := r.ensembl_exon_id
          strand := r.strand
          phase := r.phase
          end_phase := toString ((ph + exonLength) % 3)
          length := exonLength
          transcript_start_pos := ccs
          transcript_end_pos := cce
          genome_start_pos := r.exon_chrom_start
          genome_end_pos := r.exon_chrom_end
          cdna_coding_start := r.cdna_coding_start
          cdna_coding_end := r.cdna_coding_end })
  -- else: no UTR and no coding region
  else
    .ok none

/-- One entry of the `transcripts` mapping (source line 142:
`defaultdict(lambda: {'exons': []})`), keyed by transcript Ensembl id.
`tid` is the mapping key; line 151's `update` always sets the dict's
`transcript_ensembl_id` entry to that same key, so one field models
both.  `gene_ensembl_id` is `none` while the dict lacks that key (the
`defaultdict` default has only `exons`). -/
structure TGroup where
  tid : String
  gene_ensembl_id : Option String
  exons : List ExonKept
  deriving Repr, DecidableEq

/-- Lookup of `transcripts[tid]` without creating a missing entry. -/
def findGroup (gs : List TGroup) (tid : String) : Option TGroup :=
  gs.find? (fun g => g.tid == tid)

/-- Source lines 151-154: `transcripts[tid].update({...})`.  The
`defaultdict` creates a fresh `{'exons': []}` entry for an unseen key
(appended, preserving the dict's insertion order); `update` then
overwrites both id entries. -/
def updateGroup : List TGroup → String → String → List TGroup
  | [], tid, gid => [{ tid := tid, gene_ensembl_id := some gid, exons := [] }]
  | g :: gs, tid, gid =>
    if g.tid == tid then { g with gene_ensembl_id := some gid } :: gs
    else g :: updateGroup gs tid gid

/-- Source line 202: `transcripts[tid]['exons'].append(...)`.  For an
unseen key the `defaultdict` would create `{'exons': [e]}` with no id
entries (unreachable in `buildGroups`, where line 151's update always
precedes the append). -/
def appendExon : List TGroup → String → ExonKept → List TGroup
  | [], tid, e => [{ tid := tid, gene_ensembl_id := none, exons := [e] }]
  | g :: gs, tid, e =>
    if g.tid == tid then { g with exons := g.exons ++ [e] } :: gs
    else g :: appendExon gs tid e

/-- The first pass of the transcript/exon stage, source lines 142-214:
for each row (in input order), update the transcript group's id
entries, then run the Exon Transform and append a retained exon to the
group's list.  A raised exception aborts the pass. -/
def buildGroups : List ExonRow → List TGroup → Except PyErr (List TGroup)
  | [], gs => .ok gs
  | r :: rs, gs =>
    let gs1 := updateGroup gs r.ensembl_transcript_id r.ensembl_gene_id
    match exonTransform r with
    | .error e => .error e
    | .ok none => buildGroups rs gs1
    | .ok (some kept) => buildGroups rs (appendExon gs1 r.ensembl_transcript_id kept)

/-- The list comprehension `[int(exon[f]) for exon in exons]`: converts
the chosen field of every exon, raising on the first bad value. -/
def mapIntsE (f : ExonKept → String) : List ExonKept → Except PyErr (List Int)
  | [] => .ok []
  | e :: es =>
    match pyIntE (f e) with
    | .error err => .error err
    | .ok n =>
      match mapIntsE f es with
      | .error err => .error err
      | .ok ns => .ok (n :: ns)

/-- Python `min(list)` over ints; empty input raises `ValueError`. -/
def listMin : List Int → Except PyErr Int
  | [] => .error (.valueError "min() arg is an empty sequence")
  | x :: xs => .ok (xs.foldl min x)

/-- Python `max(list)` over ints; empty input raises `ValueError`. -/
def listMax : List Int → Except PyErr Int
  | [] => .error (.valueError "max() arg is an empty sequence")
  | x :: xs => .ok (xs.foldl max x)

/-- The transcript record handed to `cancergen.Transcript.get_or_create`
(source lines 226-241), after the `exons` and `gene_ensembl_id` pops. -/
structure TranscriptOut where
  transcript_ensembl_id : String
  gene_id : Nat
  cds_start_pos : Int
  cds_end_pos : Int
  length : Int
  deriving Repr, DecidableEq

/-- The exon record handed to `cancergen.Exon.get_or_create` (source
lines 248-254), after popping `cdna_coding_start`/`cdna_coding_end` and
adding the gene surrogate key.  The transcript surrogate key is carried
by the pairing in `loadTranscripts` instead of a field. -/
structure ExonOut where
  exon_ensembl_id : String
  strand : String
  phase : String
  end_phase : String
  length : Int
  transcript_start_pos : Int
  transcript_end_pos : Int
  genome_start_pos : String
  genome_end_pos : String
  gene_id : Nat
  deriving Repr, DecidableEq

/-- Strip an `ExonKept` down to the persisted `ExonOut`
(source lines 248-253). -/
def exonOut (e : ExonKept) (geneId : Nat) : ExonOut :=
  { exon_ensembl_id := e.exon_ensembl_id
    strand := e.strand
    phase := e.phase
    end_phase := e.end_phase
    length := e.length
    transcript_start_pos := e.transcript_start_pos
    transcript_end_pos := e.transcript_end_pos
    genome_start_pos := e.genome_start_pos
    genome_end_pos := e.genome_end_pos
    gene_id := geneId }

/-- The second pass of the transcript/exon stage, source lines 220-255:
iterate the groups in insertion order; skip groups with no retained
exons; compute `cds_start_pos` (min), `cds_end_pos` (max) and `length`
(sum — the source's `int(exon['length'])` applies `int` to an `int`,
the identity); pop `gene_ensembl_id` (a missing key raises `KeyError`);
resolve the gene surrogate key (`gene_id, = ...first()` raises
`TypeError` when the query returns `None`); emit the transcript paired
with its persisted exons.  `transcript_counter` is the length of the
result, `exon_counter` the total length of the paired lists. -/
def loadTranscripts (lookup : String → Option Nat) :
    List TGroup → Except PyErr (List (TranscriptOut × List ExonOut))
  | [] => .ok []
  | g :: gs =>
    if g.exons.length == 0 then loadTranscripts lookup gs
    else
      match mapIntsE (fun e => e.cdna_coding_start) g.exons with
      | .error err => .error err
      | .ok starts =>
      match listMin starts with
      | .error err => .error err
      | .ok cdsStart =>
      match mapIntsE (fun e => e.cdna_coding_end) g.exons with
      | .error err => .error err
      | .ok ends =>
      match listMax ends with
      | .error err => .error err
      | .ok cdsEnd =>
      let totalLen : Int := (g.exons.map (fun e => e.length)).foldl (· + ·) 0
      match g.gene_ensembl_id with
      | none => .error (.keyError "gene_ensembl_id")
      | some gid =>
      match lookup gid with
      | none => .error (.typeError "cannot unpack non-iterable NoneType object")
      | some geneId =>
      match loadTranscripts lookup gs with
      | .error err => .error err
      | .ok rest =>
        .ok (({ transcript_ensembl_id := g.tid
                gene_id := geneId
                cds_start_pos := cdsStart
                cds_end_pos := cdsEnd
                length := totalLen },
              g.exons.map (fun e => exonOut e geneId)) :: rest)

/-- The gene Ensembl id carried by the last row of `rows` whose
transcript id is `tid` — later rows shadow earlier ones, as the
repeated `dict.update` of source line 151 does. -/
def lastSeenGene (tid : String) : List ExonRow → Option String
  | [] => none
  | r :: rs =>
    match lastSeenGene tid rs with
    | some g => some g
    | none => if r.ensembl_transcript_id == tid then some r.ensembl_gene_id else none

/-- The `gene_ensembl_id` entry of `transcripts[tid]`: `none` when the
key `tid` is absent, `some g.gene_ensembl_id` otherwise. -/
def geneOf (gs : List TGroup) (tid : String) : Option (Option String) :=
  (findGroup gs tid).map (fun g => g.gene_ensembl_id)

/-! ## Gene stage (source lines 98-115) -/

/-- A dynamically typed Python value, as far as the gene stage needs:
the row values are `str`, the literal `1` is `int`. -/
inductive PyVal where
  | str (s : String)
  | int (n : Int)
  deriving Repr, DecidableEq

/-- Python's binary `-`: defined on two ints, a `TypeError` otherwise
(in particular on two `str` operands). -/
def pySub : PyVal → PyVal → Except PyErr PyVal
  | .int a, .int b => .ok (.int (a - b))
  | _, _ => .error (.typeError "unsupported operand type(s) for -")

/-- Python's binary `+` restricted to the shapes the gene stage can
produce: two ints add, two strings concatenate, a mix is a `TypeError`. -/
def pyAdd : PyVal → PyVal → Except PyErr PyVal
  | .int a, .int b => .ok (.int (a + b))
  | .str a, .str b => .ok (.str (a ++ b))
  | _, _ => .error (.typeError "unsupported operand type(s) for +")

/-- One gene row with the keys of `GENE_FIELDNAMES` (source lines
32-34); every value a raw string. -/
structure GeneRow where
  ensembl_gene_id : String
  hgnc_symbol : String
  gene_biotype : String
  external_gene_name : String
  chromosome_name : String
  start_position : String
  end_position : String
  deriving Repr, DecidableEq

/-- The record handed to `cancergen.Gene.get_or_create` (source lines
103-111). -/
structure GeneOut where
  gene_ensembl_id : String
  gene_symbol : String
  biotype : String
  chrom : String
  start_pos : String
  end_pos : String
  length : PyVal
  deriving Repr, DecidableEq

/-- The `gene_dict` literal of source lines 103-111.  As written the
source is not even valid Python: the comma after the `end_pos` entry
(line 109) is missing, a `SyntaxError`.  This embedding reads the
literal as the evidently intended dictionary (the comma restored) and
keeps Python's value semantics for the `length` entry, which computes
`row_dict['end_position'] - row_dict['start_position'] + 1` on the raw
`str` values — a `TypeError` on every row, since no `int(...)`
conversion is applied. -/
def mkGeneDict (r : GeneRow) : Except PyErr GeneOut :=
  match pySub (.str r.end_position) (.str r.start_position) with
  | .error e => .error e
  | .ok diff =>
  match pyAdd diff (.int 1) with
  | .error e => .error e
  | .ok len =>
    .ok { gene_ensembl_id := r.ensembl_gene_id
          gene_symbol := r.hgnc_symbol
          biotype := r.gene_biotype
          chrom := r.chromosome_name
          start_pos := r.start_position
          end_pos := r.end_position
          length := len }

/-! ## Cache gate and startup directory creation (source lines 69-94) -/

/-- `os.path.exists` over an abstract set of existing paths `fs`; the
empty path never exists (Python returns `False` for `''`). -/
def osExists (fs : String → Bool) (p : String) : Bool :=
  if p = "" then false else fs p

/-- `os.makedirs p` for a path that does not exist: the empty path
raises `FileNotFoundError` (its final `mkdir('')` fails with `ENOENT`);
creating a real missing directory succeeds. -/
def makedirs (p : String) : Except PyErr Unit :=
  if p = "" then .error (.fileNotFoundError p) else .ok ()

/-- The startup block of source lines 69-73: create the output
directory when `os.path.exists(args.cache_dir)` is false.  Note the
guard tests only existence, not whether a cache directory was
configured at all. -/
def ensureCacheDir (fs : String → Bool) (cacheDir : String) : Except PyErr Unit :=
  if !(osExists fs cacheDir) then makedirs cacheDir else .ok ()

/-- Observable outcome of one dataset's cache gate. -/
structure CacheGateResult where
  data : String
  readFromCache : Bool
  fetched : Bool
  wroteCache : Bool
  deriving Repr, DecidableEq

/-- The per-dataset cache gate (source lines 79-94, repeated for each
of the three datasets): if `args.cache_dir` is truthy (non-empty) and
the dataset's cache file exists, read it; otherwise fetch remotely and,
if `args.cache_dir` is truthy, write the cache file.  `fileExists` is
`os.path.exists` on the dataset's cache filename and `fetched` the text
a successful fetch returns. -/
def cacheGate (cacheDir : String) (fileExists : Bool) (cacheContent fetchedData : String) :
    CacheGateResult :=
  if cacheDir != "" && fileExists then
    { data := cacheContent, readFromCache := true, fetched := false, wroteCache := false }
  else
    { data := fetchedData, readFromCache := false, fetched := true,
      wroteCache := cacheDir != "" }

/-! ## Row Parser (source lines 337-344) -/

/-- Python's `s.split(sep)` on character lists: cut at every occurrence
of `sep`, keeping empty segments; the empty input gives one empty
segment, as `''.split(sep) == ['']` does. -/
def splitChar (sep : Char) : List Char → List (List Char)
  | [] => [[]]
  | c :: cs =>
    match splitChar sep cs with
    | [] => [[c]]
    | g :: gs => if c = sep then [] :: g :: gs else (c :: g) :: gs

/-- Python's `s.split(sep)` on strings. -/
def pySplit (s : String) (sep : Char) : List String :=
  (splitChar sep s.toList).map (fun cs => String.mk cs)

/-- One assignment `d[k] = v` on a Python dict rendered as an
insertion-ordered association list: an existing key keeps its position
and gets the new value, a new key is appended. -/
def dictInsert : List (String × String) → String × String → List (String × String)
  | [], kv => [kv]
  | (k, v) :: rest, kv =>
    if k == kv.1 then (k, kv.2) :: rest else (k, v) :: dictInsert rest kv

/-- `dict(zip(fieldnames, values))`: the truncating positional zip,
poured into a dict in order. -/
def pyZipDict (fieldnames values : List String) : List (String × String) :=
  (fieldnames.zip values).foldl dictInsert []

/-- The Row Parser `iter_data` (source lines 337-344): split the raw
response on newlines, skip lines equal to `''`, and for each remaining
line yield `dict(zip(fieldnames, line.split('\t')))`, in input order.
The lazy generator is rendered as the list of the rows it yields. -/
def iter_data (response : String) (fieldnames : List String) : List (List (String × String)) :=
  ((pySplit response '\n').filter (· ≠ "")).map
    (fun line => pyZipDict fieldnames (pySplit line '\t'))

/-- The Row Parser as §4.4 of the spec words it (for the refinement
claim): one mapping per non-empty line in input order, the mapping
being the plain positional zip of the field names with the line's
tab-separated values, truncated to the shorter sequence. -/
def rowParserSpec (response : String) (fieldnames : List String) :
    List (List (String × String)) :=
  ((pySplit response '\n').filter (· ≠ "")).map
    (fun line => fieldnames.zip (pySplit line '\t'))

/-! ## Remote Fetcher (source lines 324-334) -/

/-- The `requests` response as `query_biomart_api` consumes it:
`status_code`, body `text`, and the resolved `url` (endpoint plus
encoded query parameter). -/
structure HttpResponse where
  status_code : Nat
  text : String
  url : String
  deriving Repr, DecidableEq

/-- The message of the `HTTPError` raised on a non-200 response
(source lines 332-334). -/
def httpErrorMessage (code : Nat) (url : String) : String :=
  "Unsuccessful HTTP response (status code " ++ toString code ++
    "). Debug the following URL:\n" ++ url

/-- `query_biomart_api` (source lines 324-334): one synchronous GET per
call — the function consumes exactly one response, so no retry exists —
returning the body on status 200 and raising `HTTPError` otherwise. -/
def query_biomart_api (resp : HttpResponse) : Except String String :=
  if resp.status_code = 200 then .ok resp.text
  else .error (httpErrorMessage resp.status_code resp.url)

/-! ## Protein stage (source lines 283-299) -/

/-- One protein row with the keys of `PROTEIN_FIELDNAMES`
(source line 40). -/
structure ProteinRow where
  ensembl_peptide_id : String
  ensembl_transcript_id : String
  cds_length : String
  deriving Repr, DecidableEq

/-- What the transcript-table query of source lines 288-291 yields for
one transcript: its surrogate key and its gene's surrogate key. -/
structure TranscriptRec where
  id : Nat
  gene_id : Nat
  deriving Repr, DecidableEq

/-- The record handed to `cancergen.Protein.get_or_create`
(source lines 292-298). -/
structure ProteinOut where
  protein_ensembl_id : String
  cds_length : Int
  transcript_id : Nat
  gene_id : Nat
  deriving Repr, DecidableEq

/-- One iteration of the protein loop (source lines 283-299).
`lookupT` is the transcript query by `transcript_ensembl_id`; a miss
returns `None`, and the subsequent `transcript.id` raises
`AttributeError`.  `.ok none` is the `continue` that skips a row whose
peptide id or cds length is the empty string — the store and the
protein counter are untouched.  `.ok (some p)` creates the record and
increments the counter. -/
def proteinStep (lookupT : String → Option TranscriptRec) (row : ProteinRow) :
    Except PyErr (Option ProteinOut) :=
  if row.ensembl_peptide_id == "" || row.cds_length == "" then .ok none
  else
    match lookupT row.ensembl_transcript_id with
    | none => .error (.attributeError "NoneType object has no attribute id")
    | some t =>
      match pyInt row.cds_length with
      | none => .error (.valueError row.cds_length)
      | some n =>
        .ok (some { protein_ensembl_id := row.ensembl_peptide_id
                    cds_length := n
                    transcript_id := t.id
                    gene_id := t.gene_id })

/-! ## Concrete inputs used in closed statements -/

/-- The exon row of spec §8's concrete scenario: 5'UTR `1..50`, coding
region `51..200`, phase `0`, genomic span `1000..1200`, no 3'UTR. -/
def exonRowUtr5Coding : ExonRow :=
  { ensembl_exon_id := "E1", ensembl_transcript_id := "T1", ensembl_gene_id := "G1"
    strand := "1", phase := "0"
    utr5_start := "1", utr5_end := "50"
    cdna_coding_start := "51", cdna_coding_end := "200"
    utr3_start := "", utr3_end := ""
    cds_start := "", cds_end := ""
    genomic_coding_start := "", genomic_coding_end := ""
    exon_chrom_start := "1000", exon_chrom_end := "1200" }

/-- What the transform retains for `exonRowUtr5Coding`. -/
def keptUtr5Coding : ExonKept :=
  { exon_ensembl_id := "E1"
    strand := "1"
    phase := "0"
    end_phase := "0"
    length := 201
    transcript_start_pos := 1
    transcript_end_pos := 200
    genome_start_pos := "1000"
    genome_end_pos := "1200"
    cdna_coding_start := "51"
    cdna_coding_end := "200" }

/-- `exonRowUtr5Coding` with a 3'UTR `201..250` added, so that the
5'UTR, the coding region and the 3'UTR are all present. -/
def exonRowAllThree : ExonRow :=
  { exonRowUtr5Coding with utr3_start := "201", utr3_end := "250" }

/-- A 5'UTR-only exon row of transcript `T1` (coding fields empty):
dropped by the transform. -/
def exonRowDropT1 : ExonRow :=
  { exonRowUtr5Coding with
      ensembl_exon_id := "E2", cdna_coding_start := "", cdna_coding_end := "" }

/-- A retained row belonging to a second transcript `T2`. -/
def exonRowKeepT2 : ExonRow :=
  { exonRowUtr5Coding with ensembl_exon_id := "E3", ensembl_transcript_id := "T2" }

/-- Two rows of the same transcript `T1` carrying different gene ids
(`G1` first, `G2` second). -/
def exonRowsTwoGenes : List ExonRow :=
  [exonRowUtr5Coding, { exonRowUtr5Coding with ensembl_gene_id := "G2" }]

/-- The single group `buildGroups` produces for `exonRowsTwoGenes`. -/
def groupTwoGenes : TGroup :=
  { tid := "T1", gene_ensembl_id := some "G2", exons := [keptUtr5Coding, keptUtr5Coding] }

/-- A well-formed gene row. -/
def geneRowSample : GeneRow :=
  { ensembl_gene_id := "G1"
    hgnc_symbol := "S"
    gene_biotype := "protein_coding"
    external_gene_name := "N"
    chromosome_name := "1"
    start_position := "100"
    end_position := "200" }

/-- A transcript store holding exactly `T1` (surrogate key 1, gene
surrogate key 2). -/
def lookupT1 : String → Option TranscriptRec :=
  fun s => if s == "T1" then some { id := 1, gene_id := 2 } else none

/-- A protein row whose peptide id and cds length are both non-empty
but whose length does not parse as an integer. -/
def proteinRowBadLen : ProteinRow :=
  { ensembl_peptide_id := "P1", ensembl_transcript_id := "T1", cds_length := "x" }

/-! ## Helper lemmas -/

theorem pyIntE_ok {s : String} {n : Int} (h : pyIntE s = .ok n) : pyInt s = some n := by
  unfold pyIntE at h
  split at h
  · cases h; assumption
  · cases h

theorem pyInt_empty : pyInt "" = none := by decide

theorem pyInt_isSome_ne_empty {s : String} (h : (pyInt s).isSome) : s ≠ "" := by
  intro hs
  rw [hs, pyInt_empty] at h
  cases h

/-! ## Claim theorems -/

/-- C6: the concrete exon row with 5'UTR start 1, 5'UTR end 50,
cdna_coding_start 51, cdna_coding_end 200, phase 0, genomic span
1000..1200 and empty 3'UTR fields is retained, with exon length
`1200 − 1000 + 1 = 201`, transcript-relative start
`51 − 50 = 1` (the 5'UTR length being `50 − 1 + 1 = 50`),
transcript-relative end `200`, and end-phase `(0 + 201) mod 3 = 0`. -/
theorem C6_concrete_utr5_coding_row :
    exonTransform exonRowUtr5Coding = .ok (some keptUtr5Coding) ∧
    keptUtr5Coding.length = 1200 - 1000 + 1 ∧
    keptUtr5Coding.transcript_start_pos = 51 - (50 - 1 + 1) ∧
    keptUtr5Coding.transcript_end_pos = 200 ∧
    keptUtr5Coding.end_phase = toString ((0 + 201) % (3 : Int)) := by decide

/-- C1 (code bug evidence): a row in which the 5'UTR, the coding region
and the 3'UTR are all present is captured by the source's first branch
(5'UTR ∧ coding, lines 162-166), not by the branch written for this
case (lines 180-186), which is unreachable.  The retained record
ignores the 3'UTR entirely: its transcript-relative end is
`cdna_coding_end = 200` rather than `200 + 50` (the claim's
`coding_end + utr3_len`), and its end-phase is `"0"`, not `"-1"`. -/
theorem C1_all_three_row_misses_dead_branch :
    exonTransform exonRowAllThree = .ok (some keptUtr5Coding) ∧
    keptUtr5Coding.transcript_end_pos ≠ 200 + (250 - 201 + 1) ∧
    keptUtr5Coding.end_phase ≠ "-1" := by decide

/-- C2 (code bug evidence): the gene stage persists no record at all.
The `length` entry of `gene_dict` computes
`row_dict['end_position'] - row_dict['start_position'] + 1` on the raw
string values (no `int(...)` conversion), so Python raises `TypeError`
on every row — on top of the dict literal itself being a `SyntaxError`
(the comma after the `end_pos` entry is missing in the source). -/
theorem C2_gene_length_raises_type_error (r : GeneRow) :
    mkGeneDict r = .error (.typeError "unsupported operand type(s) for -") := rfl

/-- C3 (code bug evidence): with the cache flag left at its default
`''`, every dataset gate does skip the cache (nothing read, nothing
written, the data fetched remotely) — but the run never gets there:
the startup block tests only `os.path.exists(args.cache_dir)`, which is
false for `''`, and then calls `os.makedirs('')`, which raises
`FileNotFoundError`, aborting the run. -/
theorem C3_default_cache_dir_crashes_at_startup :
    (∀ fs : String → Bool, ensureCacheDir fs "" = .error (.fileNotFoundError "")) ∧
    (∀ (fileExists : Bool) (cached fetched : String),
      cacheGate "" fileExists cached fetched =
        { data := fetched, readFromCache := false, fetched := true, wroteCache := false }) := by
  refine ⟨fun fs => rfl, fun fileExists cached fetched => rfl⟩

/-- C8: the Remote Fetcher returns the raw body exactly when the status
is 200, and otherwise raises an `HTTPError` whose message carries the
status code and the requested URL.  The function consumes a single
response — there is no retry. -/
theorem C8_fetcher_status_gate (resp : HttpResponse) :
    (query_biomart_api resp = .ok resp.text ↔ resp.status_code = 200) ∧
    (resp.status_code ≠ 200 →
      query_biomart_api resp = .error (httpErrorMessage resp.status_code resp.url)) := by
  unfold query_biomart_api
  constructor
  · constructor
    · intro h
      by_contra hne
      simp only [if_neg hne] at h
      cases h
    · intro h
      simp only [if_pos h]
  · intro h
    simp only [if_neg h]

/-- Witness for C8 at a concrete non-200 response. -/
theorem C8_fetcher_status_gate_witness :
    query_biomart_api { status_code := 404, text := "nope", url := "http://x" } =
      .error (httpErrorMessage 404 "http://x") :=
  (C8_fetcher_status_gate { status_code := 404, text := "nope", url := "http://x" }).2
    (by decide)

/-- C9 (counterexample): a protein row whose peptide id and cds length
are both non-empty for which no protein record is created — the
non-numeric length `"x"` makes `int(row_dict['cds_length'])` raise
`ValueError`, so creation is not equivalent to the two fields being
non-empty. -/
theorem C9_counterexample :
    proteinRowBadLen.ensembl_peptide_id ≠ "" ∧
    proteinRowBadLen.cds_length ≠ "" ∧
    proteinStep lookupT1 proteinRowBadLen = .error (.valueError "x") := by decide

/-- C9 (amended): a protein row with an empty peptide id or empty cds
length is skipped, leaving store and counter unchanged; a protein
record is created exactly when both fields are non-empty, the
referenced transcript is found in the store, and the length parses as
an integer — the record then carries the peptide id, the parsed
length, and the transcript's and its gene's surrogate keys.  (A found
transcript with a non-parsing length raises `ValueError`; a missing
transcript raises `AttributeError`.) -/
theorem C9_protein_row_gate (lookupT : String → Option TranscriptRec) (row : ProteinRow) :
    ((row.ensembl_peptide_id = "" ∨ row.cds_length = "") →
      proteinStep lookupT row = .ok none) ∧
    (∀ t n, row.ensembl_peptide_id ≠ "" → row.cds_length ≠ "" →
      lookupT row.ensembl_transcript_id = some t → pyInt row.cds_length = some n →
      proteinStep lookupT row =
        .ok (some { protein_ensembl_id := row.ensembl_peptide_id, cds_length := n,
                    transcript_id := t.id, gene_id := t.gene_id })) ∧
    (row.ensembl_peptide_id ≠ "" → row.cds_length ≠ "" →
      lookupT row.ensembl_transcript_id = none →
      proteinStep lookupT row = .error (.attributeError "NoneType object has no attribute id")) ∧
    (∀ t, row.ensembl_peptide_id ≠ "" → row.cds_length ≠ "" →
      lookupT row.ensembl_transcript_id = some t → pyInt row.cds_length = none →
      proteinStep lookupT row = .error (.valueError row.cds_length)) := by
  refine ⟨?_, ?_, ?_, ?_⟩
  · intro h
    unfold proteinStep
    rcases h with h | h <;> simp [h]
  · intro t n h1 h2 ht hn
    unfold proteinStep
    simp [h1, h2, ht, hn]
  · intro h1 h2 ht
    unfold proteinStep
    simp [h1, h2, ht]
  · intro t h1 h2 ht hn
    unfold proteinStep
    simp [h1, h2, ht, hn]

/-- Witness for C9 (amended) at a concrete parsing row found in the
store. -/
theorem C9_protein_row_gate_witness :
    proteinStep lookupT1
        { ensembl_peptide_id := "P1", ensembl_transcript_id := "T1", cds_length := "123" } =
      .ok (some { protein_ensembl_id := "P1", cds_length := 123,
                  transcript_id := 1, gene_id := 2 }) :=
  (C9_protein_row_gate lookupT1
      { ensembl_peptide_id := "P1", ensembl_transcript_id := "T1", cds_length := "123" }).2.1
    { id := 1, gene_id := 2 } 123 (by decide) (by decide) (by decide) (by decide)

/-- C7 (counterexample): with the duplicated field-name list
`["a", "a"]` and the line `"1\t2"`, the produced dict is
`{"a": "2"}` — the first occurrence of `"a"` is not paired with the
first value `"1"`, so the mapping is not the positional zip of the two
sequences that the claim describes for every field-name list. -/
theorem C7_counterexample :
    iter_data "1\t2" ["a", "a"] = [[("a", "2")]] ∧
    rowParserSpec "1\t2" ["a", "a"] = [[("a", "1"), ("a", "2")]] ∧
    iter_data "1\t2" ["a", "a"] ≠ rowParserSpec "1\t2" ["a", "a"] := by decide

theorem dictInsert_fresh (d : List (String × String)) (kv : String × String)
    (h : ∀ p ∈ d, p.1 ≠ kv.1) : dictInsert d kv = d ++ [kv] := by
  induction d with
  | nil => rfl
  | cons p rest ih =>
    obtain ⟨k, v⟩ := p
    have hk : k ≠ kv.1 := h (k, v) (List.mem_cons_self _ _)
    unfold dictInsert
    rw [if_neg (by simpa using hk), ih (fun q hq => h q (List.mem_cons_of_mem _ hq))]
    rfl

theorem foldl_dictInsert_fresh (ps : List (String × String)) :
    ∀ acc : List (String × String),
      (ps.map Prod.fst).Nodup → (∀ p ∈ ps, ∀ q ∈ acc, q.1 ≠ p.1) →
      ps.foldl dictInsert acc = acc ++ ps := by
  induction ps with
  | nil => intro acc _ _; simp
  | cons p ps' ih =>
    intro acc hnodup hdisj
    have hstep : dictInsert acc p = acc ++ [p] :=
      dictInsert_fresh acc p (fun q hq => hdisj p (List.mem_cons_self p ps') q hq)
    have hnodup' : (ps'.map Prod.fst).Nodup := (List.nodup_cons.mp hnodup).2
    have hfresh : p.1 ∉ ps'.map Prod.fst := (List.nodup_cons.mp hnodup).1
    have hdisj' : ∀ r ∈ ps', ∀ q ∈ acc ++ [p], q.1 ≠ r.1 := by
      intro r hr q hq
      rcases List.mem_append.mp hq with hq | hq
      · exact hdisj r (List.mem_cons_of_mem p hr) q hq
      · rcases List.mem_singleton.mp hq with rfl
        intro hc
        exact hfresh (hc ▸ List.mem_map_of_mem Prod.fst hr)
    calc (p :: ps').foldl dictInsert acc = ps'.foldl dictInsert (dictInsert acc p) := rfl
      _ = ps'.foldl dictInsert (acc ++ [p]) := by rw [hstep]
      _ = (acc ++ [p]) ++ ps' := ih (acc ++ [p]) hnodup' hdisj'
      _ = acc ++ (p :: ps') := by simp

theorem zip_keys_nodup {names : List String} (vals : List String) (h : names.Nodup) :
    ((names.zip vals).map Prod.fst).Nodup := by
  induction names generalizing vals with
  | nil => simp
  | cons a ns ih =>
    cases vals with
    | nil => simp
    | cons v vs =>
      rw [List.zip_cons_cons, List.map_cons, List.nodup_cons]
      refine ⟨?_, ih vs (List.nodup_cons.mp h).2⟩
      intro hmem
      rcases List.mem_map.mp hmem with ⟨⟨x, y⟩, hxy, hx⟩
      cases hx
      exact (List.nodup_cons.mp h).1 (List.of_mem_zip hxy).1

theorem pyZipDict_eq_zip (names vals : List String) (h : names.Nodup) :
    pyZipDict names vals = names.zip vals := by
  unfold pyZipDict
  rw [foldl_dictInsert_fresh (names.zip vals) [] (zip_keys_nodup vals h) (by simp)]
  simp

/-- C7 (amended): for every raw text and every field-name list without
duplicate names, the Row Parser yields exactly one mapping per
non-empty line, in input order, each mapping being the positional zip
of the field names with the line's tab-separated values, truncated to
the shorter sequence, every value kept verbatim — i.e. it agrees with
the spec-worded parser `rowParserSpec`.  (When a name repeats, the
Python dict keeps only the value at the name's last position.) -/
theorem C7_row_parser_refines_spec (response : String) (fieldnames : List String)
    (h : fieldnames.Nodup) :
    iter_data response fieldnames = rowParserSpec response fieldnames := by
  unfold iter_data rowParserSpec
  refine List.map_congr_left ?_
  intro line _
  exact pyZipDict_eq_zip fieldnames (pySplit line '\t') h

/-- Witness for C7 (amended) on a concrete two-line response with the
duplicate-free field-name list `["x", "y", "z"]`. -/
theorem C7_row_parser_refines_spec_witness :
    (["x", "y", "z"] : List String).Nodup ∧
    iter_data "1\t2\n\n3\t4\t5\t6" ["x", "y", "z"] =
      rowParserSpec "1\t2\n\n3\t4\t5\t6" ["x", "y", "z"] :=
  ⟨by decide, C7_row_parser_refines_spec "1\t2\n\n3\t4\t5\t6" ["x", "y", "z"] (by decide)⟩

theorem findGroup_nil (tid : String) : findGroup [] tid = none := rfl

theorem findGroup_cons (g : TGroup) (gs : List TGroup) (tid : String) :
    findGroup (g :: gs) tid = if g.tid = tid then some g else findGroup gs tid := by
  by_cases h : g.tid = tid
  · rw [if_pos h]
    exact List.find?_cons_of_pos _ (by simpa using h)
  · rw [if_neg h]
    exact List.find?_cons_of_neg _ (by simpa using h)

theorem geneOf_cons (g : TGroup) (gs : List TGroup) (tid : String) :
    geneOf (g :: gs) tid =
      if g.tid = tid then some g.gene_ensembl_id else geneOf gs tid := by
  unfold geneOf
  rw [findGroup_cons]
  by_cases h : g.tid = tid <;> simp [h]

theorem updateGroup_cons (g : TGroup) (gs : List TGroup) (tid gid : String) :
    updateGroup (g :: gs) tid gid =
      if g.tid = tid then { g with gene_ensembl_id := some gid } :: gs
      else g :: updateGroup gs tid gid := by
  simp only [updateGroup]
  by_cases h : g.tid = tid
  · rw [if_pos (by simpa using h), if_pos h]
  · rw [if_neg (by simpa using h), if_neg h]

theorem appendExon_cons (g : TGroup) (gs : List TGroup) (tid : String) (e : ExonKept) :
    appendExon (g :: gs) tid e =
      if g.tid = tid then { g with exons := g.exons ++ [e] } :: gs
      else g :: appendExon gs tid e := by
  simp only [appendExon]
  by_cases h : g.tid = tid
  · rw [if_pos (by simpa using h), if_pos h]
  · rw [if_neg (by simpa using h), if_neg h]

theorem geneOf_updateGroup_self (gs : List TGroup) (tid gid : String) :
    geneOf (updateGroup gs tid gid) tid = some (some gid) := by
  induction gs with
  | nil => simp [updateGroup, geneOf_cons]
  | cons g gs' ih =>
    rw [updateGroup_cons]
    by_cases h : g.tid = tid
    · rw [if_pos h, geneOf_cons, if_pos h]
    · rw [if_neg h, geneOf_cons, if_neg h]
      exact ih

theorem geneOf_updateGroup_other (gs : List TGroup) (tid' gid tid : String)
    (h : tid' ≠ tid) : geneOf (updateGroup gs tid' gid) tid = geneOf gs tid := by
  induction gs with
  | nil =>
    unfold updateGroup
    rw [geneOf_cons]
    simp [h]
  | cons g gs' ih =>
    rw [updateGroup_cons]
    by_cases hg : g.tid = tid'
    · have hgt : g.tid ≠ tid := by rw [hg]; exact h
      rw [if_pos hg, geneOf_cons, geneOf_cons]
      simp [hgt]
    · rw [if_neg hg, geneOf_cons, geneOf_cons]
      by_cases hgt : g.tid = tid
      · simp [hgt]
      · simp only [if_neg hgt]
        exact ih

theorem geneOf_appendExon_other (gs : List TGroup) (tid' tid : String) (e : ExonKept)
    (h : tid' ≠ tid) : geneOf (appendExon gs tid' e) tid = geneOf gs tid := by
  induction gs with
  | nil =>
    unfold appendExon
    rw [geneOf_cons]
    simp [h]
  | cons g gs' ih =>
    rw [appendExon_cons]
    by_cases hg : g.tid = tid'
    · rw [if_pos hg, geneOf_cons, geneOf_cons]
    · rw [if_neg hg, geneOf_cons, geneOf_cons]
      by_cases hgt : g.tid = tid
      · simp [hgt]
      · simp only [if_neg hgt]
        exact ih

theorem geneOf_appendExon_self (gs : List TGroup) (tid : String) (e : ExonKept)
    (h : (findGroup gs tid).isSome) :
    geneOf (appendExon gs tid e) tid = geneOf gs tid := by
  induction gs with
  | nil => rw [findGroup_nil] at h; cases h
  | cons g gs' ih =>
    rw [appendExon_cons]
    by_cases hg : g.tid = tid
    · rw [if_pos hg, geneOf_cons, geneOf_cons]
    · rw [if_neg hg, geneOf_cons, geneOf_cons]
      simp only [if_neg hg]
      rw [findGroup_cons, if_neg hg] at h
      exact ih h

theorem findGroup_isSome_of_geneOf {gs : List TGroup} {tid : String} {o : Option String}
    (h : geneOf gs tid = some o) : (findGroup gs tid).isSome := by
  unfold geneOf at h
  cases hf : findGroup gs tid with
  | none => rw [hf] at h; cases h
  | some g => rfl

/-- The gene entry of `transcripts[tid]` after the first pass equals
the gene id on the last row of that transcript (later rows shadow
earlier ones); when no row carries `tid`, the entry is whatever the
initial mapping held. -/
theorem buildGroups_geneOf (rows : List ExonRow) :
    ∀ (gs0 gs : List TGroup) (tid : String),
      buildGroups rows gs0 = .ok gs →
      geneOf gs tid =
        match lastSeenGene tid rows with
        | some gid => some (some gid)
        | none => geneOf gs0 tid := by
  induction rows with
  | nil =>
    intro gs0 gs tid h
    cases h
    rfl
  | cons r rs ih =>
    intro gs0 gs tid h
    unfold buildGroups at h
    cases htr : exonTransform r with
    | error e => rw [htr] at h; cases h
    | ok o =>
      rw [htr] at h
      have step :
          ∀ gs1 : List TGroup,
            buildGroups rs gs1 = .ok gs →
            (geneOf gs1 tid =
              match lastSeenGene tid [r] with
              | some gid => some (some gid)
              | none => geneOf gs0 tid) →
            geneOf gs tid =
              match lastSeenGene tid (r :: rs) with
              | some gid => some (some gid)
              | none => geneOf gs0 tid := by
        intro gs1 hb hone
        have hrec := ih gs1 gs tid hb
        show geneOf gs tid =
          match lastSeenGene tid (r :: rs) with
          | some gid => some (some gid)
          | none => geneOf gs0 tid
        unfold lastSeenGene
        cases hlast : lastSeenGene tid rs with
        | some gid => rw [hlast] at hrec; exact hrec
        | none =>
          rw [hlast] at hrec
          rw [hrec, hone]
          simp [lastSeenGene]
      cases o with
      | none =>
        refine step (updateGroup gs0 r.ensembl_transcript_id r.ensembl_gene_id) h ?_
        by_cases htid : r.ensembl_transcript_id = tid
        · subst htid
          simp [lastSeenGene, geneOf_updateGroup_self]
        · simp [lastSeenGene, htid, geneOf_updateGroup_other _ _ _ _ htid]
      | some kept =>
        refine step
          (appendExon (updateGroup gs0 r.ensembl_transcript_id r.ensembl_gene_id)
            r.ensembl_transcript_id kept) h ?_
        by_cases htid : r.ensembl_transcript_id = tid
        · subst htid
          rw [geneOf_appendExon_self _ _ _
            (findGroup_isSome_of_geneOf (geneOf_updateGroup_self gs0 _ r.ensembl_gene_id))]
          simp [lastSeenGene, geneOf_updateGroup_self]
        · rw [geneOf_appendExon_other _ _ _ _ htid]
          simp [lastSeenGene, htid, geneOf_updateGroup_other _ _ _ _ htid]

/-- C4 (counterexample): two rows of transcript `T1`, the first carrying
gene `G1`, the second gene `G2`.  The group retained for `T1` carries
`G2` — the gene identifier of the last-seen row, not of the first-seen
row as the claim states. -/
theorem C4_counterexample :
    buildGroups exonRowsTwoGenes [] = .ok [groupTwoGenes] ∧
    (exonRowsTwoGenes.head?.map (fun r => r.ensembl_gene_id)) = some "G1" ∧
    groupTwoGenes.gene_ensembl_id = some "G2" ∧
    some "G2" ≠ (some "G1" : Option String) := by decide

/-- C4 (amended): when the same transcript identifier occurs on several
rows with differing gene identifiers, the gene identifier retained for
the transcript's group is the one of the *last-seen* row of that
transcript (every row's `dict.update` overwrites the entry, including
rows whose exon is dropped). -/
theorem C4_last_seen_gene_retained (rows : List ExonRow) (gs : List TGroup)
    (tid gid : String) (g : TGroup)
    (hbuild : buildGroups rows [] = .ok gs)
    (hfind : findGroup gs tid = some g)
    (hlast : lastSeenGene tid rows = some gid) :
    g.gene_ensembl_id = some gid := by
  have h := buildGroups_geneOf rows [] gs tid hbuild
  rw [hlast] at h
  unfold geneOf at h
  rw [hfind] at h
  simpa using h

/-- Witness for C4 (amended) on the two-row dataset `exonRowsTwoGenes`. -/
theorem C4_last_seen_gene_retained_witness :
    groupTwoGenes.gene_ensembl_id = some "G2" :=
  C4_last_seen_gene_retained exonRowsTwoGenes [groupTwoGenes] "T1" "G2" groupTwoGenes
    (by decide) (by decide) (by decide)

/-- Every pair the second pass emits descends from a group with that
transcript id and a non-empty exon list. -/
theorem loadTranscripts_mem (lookup : String → Option Nat) :
    ∀ (gs : List TGroup) (out : List (TranscriptOut × List ExonOut)),
      loadTranscripts lookup gs = .ok out →
      ∀ p ∈ out, ∃ g ∈ gs, g.tid = p.1.transcript_ensembl_id ∧ g.exons ≠ [] := by
  intro gs
  induction gs with
  | nil =>
    intro out h p hp
    cases h
    cases hp
  | cons g gs' ih =>
    intro out h p hp
    unfold loadTranscripts at h
    by_cases hlen : g.exons.length == 0
    · rw [if_pos hlen] at h
      obtain ⟨g', hg', hrest⟩ := ih out h p hp
      exact ⟨g', List.mem_cons_of_mem g hg', hrest⟩
    · rw [if_neg hlen] at h
      split at h
      · cases h
      case _ starts hstarts =>
      split at h
      · cases h
      case _ cdsStart hmin =>
      split at h
      · cases h
      case _ ends hends =>
      split at h
      · cases h
      case _ cdsEnd hmax =>
      split at h
      · cases h
      case _ gid hgid =>
      split at h
      · cases h
      case _ geneId hlook =>
      split at h
      · cases h
      case _ rest hrest =>
      cases h
      rcases List.mem_cons.mp hp with rfl | hp'
      · refine ⟨g, List.mem_cons_self g gs', rfl, ?_⟩
        intro hnil
        rw [hnil] at hlen
        exact hlen rfl
      · obtain ⟨g', hg', hrest'⟩ := ih rest hrest p hp'
        exact ⟨g', List.mem_cons_of_mem g hg', hrest'⟩

theorem updateGroup_empty_inv (tid : String) (gs : List TGroup) (tid' gid : String)
    (h : ∀ g ∈ gs, g.tid = tid → g.exons = []) :
    ∀ g ∈ updateGroup gs tid' gid, g.tid = tid → g.exons = [] := by
  induction gs with
  | nil =>
    intro g hg _
    simp only [updateGroup, List.mem_singleton] at hg
    rw [hg]
  | cons g0 gs' ih =>
    intro g hg htid
    rw [updateGroup_cons] at hg
    by_cases h0 : g0.tid = tid'
    · rw [if_pos h0] at hg
      rcases List.mem_cons.mp hg with rfl | hg'
      · exact h g0 (List.mem_cons_self g0 gs') htid
      · exact h g (List.mem_cons_of_mem g0 hg') htid
    · rw [if_neg h0] at hg
      rcases List.mem_cons.mp hg with rfl | hg'
      · exact h g (List.mem_cons_self g gs') htid
      · exact ih (fun x hx => h x (List.mem_cons_of_mem g0 hx)) g hg' htid

theorem appendExon_other_empty_inv (tid : String) (gs : List TGroup) (tid' : String)
    (e : ExonKept) (hne : tid' ≠ tid)
    (h : ∀ g ∈ gs, g.tid = tid → g.exons = []) :
    ∀ g ∈ appendExon gs tid' e, g.tid = tid → g.exons = [] := by
  induction gs with
  | nil =>
    intro g hg htid
    simp only [appendExon, List.mem_singleton] at hg
    rw [hg] at htid
    exact absurd htid hne
  | cons g0 gs' ih =>
    intro g hg htid
    rw [appendExon_cons] at hg
    by_cases h0 : g0.tid = tid'
    · rw [if_pos h0] at hg
      rcases List.mem_cons.mp hg with rfl | hg'
      · exact absurd (h0.symm.trans htid) hne
      · exact h g (List.mem_cons_of_mem g0 hg') htid
    · rw [if_neg h0] at hg
      rcases List.mem_cons.mp hg with rfl | hg'
      · exact h g (List.mem_cons_self g gs') htid
      · exact ih (fun x hx => h x (List.mem_cons_of_mem g0 hx)) g hg' htid

/-- After the first pass, a transcript whose rows were all dropped has
an empty exon list in its group (if any group exists for it). -/
theorem buildGroups_dropped_empty (tid : String) :
    ∀ (rows : List ExonRow) (gs0 gs : List TGroup),
      buildGroups rows gs0 = .ok gs →
      (∀ r ∈ rows, r.ensembl_transcript_id = tid → exonTransform r = .ok none) →
      (∀ g ∈ gs0, g.tid = tid → g.exons = []) →
      ∀ g ∈ gs, g.tid = tid → g.exons = [] := by
  intro rows
  induction rows with
  | nil =>
    intro gs0 gs h _ hinv
    cases h
    exact hinv
  | cons r rs ih =>
    intro gs0 gs h hdrop hinv
    unfold buildGroups at h
    have hinv1 : ∀ g ∈ updateGroup gs0 r.ensembl_transcript_id r.ensembl_gene_id,
        g.tid = tid → g.exons = [] :=
      updateGroup_empty_inv tid gs0 _ _ hinv
    have hdrop' : ∀ x ∈ rs, x.ensembl_transcript_id = tid → exonTransform x = .ok none :=
      fun x hx => hdrop x (List.mem_cons_of_mem r hx)
    cases htr : exonTransform r with
    | error e => rw [htr] at h; cases h
    | ok o =>
      rw [htr] at h
      cases o with
      | none => exact ih _ gs h hdrop' hinv1
      | some kept =>
        have hne : r.ensembl_transcript_id ≠ tid := by
          intro hr
          have := hdrop r (List.mem_cons_self r rs) hr
          rw [htr] at this
          cases this
        exact ih _ gs h hdrop' (appendExon_other_empty_inv tid _ _ kept hne hinv1)

/-- C5: a transcript all of whose exon rows are dropped by the Exon
Transform is never persisted — the second pass emits no transcript pair
carrying its identifier, hence zero transcript rows, zero exon rows
(every emitted exon sits inside its transcript's pair), and no
contribution to the transcript counter (the counter is the number of
emitted pairs). -/
theorem C5_all_dropped_transcript_never_persisted
    (lookup : String → Option Nat) (rows : List ExonRow) (tid : String)
    (gs : List TGroup) (out : List (TranscriptOut × List ExonOut))
    (hbuild : buildGroups rows [] = .ok gs)
    (hload : loadTranscripts lookup gs = .ok out)
    (hdrop : ∀ r ∈ rows, r.ensembl_transcript_id = tid → exonTransform r = .ok none) :
    ∀ p ∈ out, p.1.transcript_ensembl_id ≠ tid := by
  intro p hp heq
  obtain ⟨g, hg, htid, hne⟩ := loadTranscripts_mem lookup gs out hload p hp
  exact hne
    (buildGroups_dropped_empty tid rows [] gs hbuild hdrop (fun g hg => absurd hg (by simp))
      g hg (htid.trans heq))

/-- Witness for C5: dataset with a dropped-everywhere transcript `T1`
(one 5'UTR-only row) and a persisted transcript `T2`; the single
emitted pair is `T2`'s, not `T1`'s. -/
theorem C5_all_dropped_transcript_never_persisted_witness :
    ({ transcript_ensembl_id := "T2", gene_id := 7, cds_start_pos := 51,
       cds_end_pos := 200, length := 201 } : TranscriptOut).transcript_ensembl_id ≠ "T1" := by
  have h := C5_all_dropped_transcript_never_persisted (fun _ => some 7)
    [exonRowDropT1, exonRowKeepT2] "T1"
    [{ tid := "T1", gene_ensembl_id := some "G1", exons := [] },
     { tid := "T2", gene_ensembl_id := some "G1",
       exons := [{ keptUtr5Coding with exon_ensembl_id := "E3" }] }]
    [({ transcript_ensembl_id := "T2", gene_id := 7, cds_start_pos := 51,
        cds_end_pos := 200, length := 201 },
      [exonOut { keptUtr5Coding with exon_ensembl_id := "E3" } 7])]
    (by decide) (by decide) (by decide)
  exact h _ (List.mem_singleton.mpr rfl)

/-- Every branch of the Exon Transform that retains a record has
successfully applied `int(...)` to both `cdna_coding_start` and
`cdna_coding_end` of the row the record copies them from. -/
theorem exonTransform_some_parses (r : ExonRow) (k : ExonKept)
    (h : exonTransform r = .ok (some k)) :
    (pyInt k.cdna_coding_start).isSome ∧ (pyInt k.cdna_coding_end).isSome := by
  unfold exonTransform at h
  split at h
  · cases h
  case _ ce hce =>
  split at h
  · cases h
  case _ cs hcs =>
  split at h
  -- branch: 5'UTR and coding region
  · split at h
    · cases h
    case _ u5e h5e =>
    split at h
    · cases h
    case _ u5s h5s =>
    split at h
    · cases h
    case _ ccs hccs =>
    split at h
    · cases h
    case _ cce hcce =>
    split at h
    · cases h
    case _ ph hph =>
    injection h with h1
    injection h1 with h2
    subst h2
    show (pyInt r.cdna_coding_start).isSome ∧ (pyInt r.cdna_coding_end).isSome
    rw [pyIntE_ok hccs, pyIntE_ok hcce]
    exact ⟨rfl, rfl⟩
  · split at h
    -- branch: 5'UTR only — dropped
    · simp at h
    · split at h
      -- branch: coding region and 3'UTR
      · split at h
        · cases h
        case _ u3e h3e =>
        split at h
        · cases h
        case _ u3s h3s =>
        split at h
        · cases h
        case _ ccs hccs =>
        split at h
        · cases h
        case _ cce hcce =>
        injection h with h1
        injection h1 with h2
        subst h2
        show (pyInt r.cdna_coding_start).isSome ∧ (pyInt r.cdna_coding_end).isSome
        rw [pyIntE_ok hccs, pyIntE_ok hcce]
        exact ⟨rfl, rfl⟩
      · split at h
        -- branch: 3'UTR only — dropped
        · simp at h
        · split at h
          -- branch: 5'UTR, 3'UTR and coding region (unreachable in fact)
          · split at h
            · cases h
            case _ u5e h5e =>
            split at h
            · cases h
            case _ u5s h5s =>
            split at h
            · cases h
            case _ u3e h3e =>
            split at h
            · cases h
            case _ u3s h3s =>
            split at h
            · cases h
            case _ ccs hccs =>
            split at h
            · cases h
            case _ cce hcce =>
            injection h with h1
            injection h1 with h2
            subst h2
            show (pyInt r.cdna_coding_start).isSome ∧ (pyInt r.cdna_coding_end).isSome
            rw [pyIntE_ok hccs, pyIntE_ok hcce]
            exact ⟨rfl, rfl⟩
          · split at h
            -- branch: 5'UTR and 3'UTR only — dropped
            · simp at h
            · split at h
              -- branch: coding region only
              · split at h
                · cases h
                case _ ccs hccs =>
                split at h
                · cases h
                case _ cce hcce =>
                split at h
                · cases h
                case _ ph hph =>
                injection h with h1
                injection h1 with h2
                subst h2
                show (pyInt r.cdna_coding_start).isSome ∧ (pyInt r.cdna_coding_end).isSome
                rw [pyIntE_ok hccs, pyIntE_ok hcce]
                exact ⟨rfl, rfl⟩
              -- branch: nothing present — dropped
              · simp at h

theorem updateGroup_exons_inv (P : ExonKept → Prop) (gs : List TGroup) (tid gid : String)
    (h : ∀ g ∈ gs, ∀ e ∈ g.exons, P e) :
    ∀ g ∈ updateGroup gs tid gid, ∀ e ∈ g.exons, P e := by
  induction gs with
  | nil =>
    intro g hg e he
    simp only [updateGroup, List.mem_singleton] at hg
    rw [hg] at he
    cases he
  | cons g0 gs' ih =>
    intro g hg e he
    rw [updateGroup_cons] at hg
    by_cases h0 : g0.tid = tid
    · rw [if_pos h0] at hg
      rcases List.mem_cons.mp hg with rfl | hg'
      · exact h g0 (List.mem_cons_self g0 gs') e he
      · exact h g (List.mem_cons_of_mem g0 hg') e he
    · rw [if_neg h0] at hg
      rcases List.mem_cons.mp hg with rfl | hg'
      · exact h g (List.mem_cons_self g gs') e he
      · exact ih (fun x hx => h x (List.mem_cons_of_mem g0 hx)) g hg' e he

theorem appendExon_exons_inv (P : ExonKept → Prop) (gs : List TGroup) (tid : String)
    (e0 : ExonKept) (h0 : P e0)
    (h : ∀ g ∈ gs, ∀ e ∈ g.exons, P e) :
    ∀ g ∈ appendExon gs tid e0, ∀ e ∈ g.exons, P e := by
  induction gs with
  | nil =>
    intro g hg e he
    simp only [appendExon, List.mem_singleton] at hg
    rw [hg] at he
    rcases List.mem_singleton.mp he with rfl
    exact h0
  | cons g0 gs' ih =>
    intro g hg e he
    rw [appendExon_cons] at hg
    by_cases hx : g0.tid = tid
    · rw [if_pos hx] at hg
      rcases List.mem_cons.mp hg with rfl | hg'
      · rcases List.mem_append.mp he with he' | he'
        · exact h g0 (List.mem_cons_self g0 gs') e he'
        · rcases List.mem_singleton.mp he' with rfl
          exact h0
      · exact h g (List.mem_cons_of_mem g0 hg') e he
    · rw [if_neg hx] at hg
      rcases List.mem_cons.mp hg with rfl | hg'
      · exact h g (List.mem_cons_self g gs') e he
      · exact ih (fun x hxm => h x (List.mem_cons_of_mem g0 hxm)) g hg' e he

/-- Any property of retained exon records (established at the transform)
is an invariant of the first pass. -/
theorem buildGroups_exons_inv (P : ExonKept → Prop)
    (hP : ∀ r k, exonTransform r = .ok (some k) → P k) :
    ∀ (rows : List ExonRow) (gs0 gs : List TGroup),
      buildGroups rows gs0 = .ok gs →
      (∀ g ∈ gs0, ∀ e ∈ g.exons, P e) →
      ∀ g ∈ gs, ∀ e ∈ g.exons, P e := by
  intro rows
  induction rows with
  | nil =>
    intro gs0 gs h hinv
    cases h
    exact hinv
  | cons r rs ih =>
    intro gs0 gs h hinv
    unfold buildGroups at h
    have hinv1 := updateGroup_exons_inv P gs0 r.ensembl_transcript_id r.ensembl_gene_id hinv
    cases htr : exonTransform r with
    | error e => rw [htr] at h; cases h
    | ok o =>
      rw [htr] at h
      cases o with
      | none => exact ih _ gs h hinv1
      | some kept =>
        exact ih _ gs h
          (appendExon_exons_inv P _ r.ensembl_transcript_id kept (hP r kept htr) hinv1)

theorem mapIntsE_ok (f : ExonKept → String) (l : List ExonKept)
    (h : ∀ e ∈ l, (pyInt (f e)).isSome) : ∃ ns, mapIntsE f l = .ok ns := by
  induction l with
  | nil => exact ⟨[], rfl⟩
  | cons e es ih =>
    obtain ⟨n, hn⟩ := Option.isSome_iff_exists.mp (h e (List.mem_cons_self e es))
    obtain ⟨ns, hns⟩ := ih (fun x hx => h x (List.mem_cons_of_mem e hx))
    exact ⟨n :: ns, by simp [mapIntsE, pyIntE, hn, hns]⟩

/-- C10: every exon record a transcript group retains carries non-empty
`cdna_coding_start` and `cdna_coding_end` values that parse as
integers — every retaining branch of the transform has already applied
`int(...)` to both — so the Record Aggregator's per-group conversions
for the coding-span min/max are well-defined and cannot fail. -/
theorem C10_retained_exons_coding_fields_parse (rows : List ExonRow) (gs : List TGroup)
    (hbuild : buildGroups rows [] = .ok gs) :
    ∀ g ∈ gs,
      (∀ k ∈ g.exons,
        k.cdna_coding_start ≠ "" ∧ k.cdna_coding_end ≠ "" ∧
        (pyInt k.cdna_coding_start).isSome ∧ (pyInt k.cdna_coding_end).isSome) ∧
      (∃ ns, mapIntsE (fun e => e.cdna_coding_start) g.exons = .ok ns) ∧
      (∃ ns, mapIntsE (fun e => e.cdna_coding_end) g.exons = .ok ns) := by
  intro g hg
  have hall := buildGroups_exons_inv
    (fun k => (pyInt k.cdna_coding_start).isSome ∧ (pyInt k.cdna_coding_end).isSome)
    exonTransform_some_parses rows [] gs hbuild
    (fun g hg => absurd hg (by simp)) g hg
  refine ⟨?_, ?_, ?_⟩
  · intro k hk
    obtain ⟨h1, h2⟩ := hall k hk
    exact ⟨pyInt_isSome_ne_empty h1, pyInt_isSome_ne_empty h2, h1, h2⟩
  · exact mapIntsE_ok _ g.exons (fun e he => (hall e he).1)
  · exact mapIntsE_ok _ g.exons (fun e he => (hall e he).2)

/-- Witness for C10 on the one-row dataset `[exonRowUtr5Coding]`. -/
theorem C10_retained_exons_coding_fields_parse_witness :
    (keptUtr5Coding.cdna_coding_start ≠ "" ∧ keptUtr5Coding.cdna_coding_end ≠ "" ∧
      (pyInt keptUtr5Coding.cdna_coding_start).isSome ∧
      (pyInt keptUtr5Coding.cdna_coding_end).isSome) ∧
    (∃ ns, mapIntsE (fun e => e.cdna_coding_start) [keptUtr5Coding] = .ok ns) := by
  have h := C10_retained_exons_coding_fields_parse [exonRowUtr5Coding]
    [{ tid := "T1", gene_ensembl_id := some "G1", exons := [keptUtr5Coding] }] (by decide)
    _ (List.mem_singleton.mpr rfl)
  exact ⟨h.1 keptUtr5Coding (List.mem_singleton.mpr rfl), h.2.1⟩

end CancerApi
